import Mathlib

/-!
Shallow embedding of the Smart Bin Monitoring service (src/app.py) and its
sensor simulator (src/sensor_simulator.py).

Modelling conventions:
* Machine floats (`time.time()` timestamps, `random.random()` rolls, the
  probability constants) are modelled as rationals; the comparisons the code
  performs are order comparisons, faithfully mirrored on `ℚ`.
* JSON payload values that can reach the coercion logic are modelled by
  `JsonVal` (booleans, integers, strings); a JSON `null` (Python `None`)
  is modelled as `Option.none` at the use sites, matching `dict.get`.
* The Twilio collaborator `safe_send_sms` is external network code; its
  observable outcome (the dict with `sent` / `sid` / `error`) is passed to the
  endpoint functions as an explicit `SmsResult` argument, and each endpoint
  result records whether a send was attempted.
* The SQLAlchemy session is modelled as explicit state (`ServerState`):
  lists of rows in insertion order; queries with `first()` take the first
  match, appends go to the end, `order_by(ts.desc()).limit(n)` becomes
  `reverse` then `take`.
-/

namespace SmartBin

/-- JSON scalar values as seen by the Flask handlers after parsing. -/
inductive JsonVal
  | jbool (b : Bool)
  | jint  (n : Int)
  | jstr  (s : String)
deriving DecidableEq, Repr

/-- Python truthiness (`bool(v)`) of a JSON scalar. -/
def truthy : JsonVal → Bool
  | .jbool b => b
  | .jint n => n != 0
  | .jstr s => s != ""

/-- Python truthiness of an optional JSON value (`bool(None)` is `False`). -/
def pyBool : Option JsonVal → Bool
  | none => false
  | some v => truthy v

/-- Python `int(s)` on a string: optional surrounding whitespace, optional
sign, then a nonempty run of decimal digits; anything else raises
(modelled as `none`). -/
def parseIntString (s : String) : Option Int :=
  let cs := ((s.toList.dropWhile Char.isWhitespace).reverse.dropWhile
      Char.isWhitespace).reverse
  match cs with
  | [] => none
  | c :: rest =>
    let signed : Bool × List Char :=
      if c = '-' then (true, rest)
      else if c = '+' then (false, rest)
      else (false, c :: rest)
    let ds := signed.2
    if ds ≠ [] ∧ ds.all Char.isDigit then
      let n : Nat := ds.foldl (fun acc d => acc * 10 + (d.toNat - 48)) 0
      some (if signed.1 then -(n : Int) else (n : Int))
    else none

/-- Python `int(v)` on a JSON scalar; `none` models the raised exception. -/
def pyInt : JsonVal → Option Int
  | .jbool b => some (if b then 1 else 0)
  | .jint n => some n
  | .jstr s => parseIntString s

/-- The level-coercion logic of `update_level` (app.py lines 144-150):
`level = data.get("level")`; if that is `None`, `level = data.get("value")
or 0`; then `int(level)` with exceptions mapped to `0`. -/
def coerceLevel (levelField valueField : Option JsonVal) : Int :=
  let raw : JsonVal :=
    match levelField with
    | some v => v
    | none =>
      match valueField with
      | some v => if truthy v then v else .jint 0
      | none => .jint 0
  (pyInt raw).getD 0

/-- Row of the `bins` table.  `last_alert_ts` is a nullable float column with
default `0.0`. -/
structure BinRec where
  name : String
  last_alert_ts : Option ℚ
  latest_level : Int
deriving DecidableEq, Repr

/-- Row of the `readings` table. -/
structure ReadingRec where
  bin_name : String
  level : Int
  ts : ℚ
deriving DecidableEq, Repr

/-- Row of the `action_logs` table. -/
structure ActionLogRec where
  action_type : String
  detail : String
deriving DecidableEq, Repr

/-- The relational store: rows in insertion order. -/
structure ServerState where
  bins : List BinRec
  readings : List ReadingRec
  actions : List ActionLogRec
  settings : List (String × String)
deriving DecidableEq, Repr

/-- Observable outcome of `safe_send_sms` (the returned dict). -/
structure SmsResult where
  sent : Bool
  sid : Option String
  error : Option String
deriving DecidableEq, Repr

/-- The fixed bin-name whitelist used by every route. -/
def VALID_BINS : List String := ["yellow", "green", "blue"]

/-- Default of `ALERT_COOLDOWN_SECONDS` (`os.getenv(..., "60")`). -/
def ALERT_COOLDOWN_DEFAULT : ℚ := 60

/-- Python `x or 0` applied to a nullable float (`b.last_alert_ts or 0`). -/
def orZero : Option ℚ → ℚ
  | none => 0
  | some t => t

/-- `Bin.query.filter_by(name=name).first()`. -/
def findBin (bins : List BinRec) (name : String) : Option BinRec :=
  bins.find? (fun b => b.name == name)

/-- Write back a bin row: replace the first row with the same name, or append
it (`db.session.add` of a fresh record). -/
def replaceBin : List BinRec → BinRec → List BinRec
  | [], b => [b]
  | x :: xs, b => if x.name == b.name then b :: xs else x :: replaceBin xs b

/-- `log_action`: append an `ActionLog` row (best-effort in the source; the
happy path always appends). -/
def log_action (st : ServerState) (action_type detail : String) : ServerState :=
  { st with actions := st.actions ++ [⟨action_type, detail⟩] }

/-- Render an optional string the way an f-string renders `res.get(k)`. -/
def showOpt : Option String → String
  | none => "None"
  | some s => s

/-- Responses of `update_level`. -/
inductive UpdateResp
  | err (msg : String) (code : Nat)
  | ok (status : String) (bin : String) (level : Int) (alert_sent : Bool)
deriving DecidableEq, Repr

/-- Result of one `update_level` request: the JSON response, the new store
state, and whether `safe_send_sms` was invoked. -/
structure UpdateResult where
  resp : UpdateResp
  state : ServerState
  smsAttempted : Bool
deriving DecidableEq, Repr

/-- `POST /update_level/<bin_color>` (app.py lines 138-180).
`levelField` / `valueField` are `data.get("level")` / `data.get("value")`
(`none` for an absent key or a JSON null); `tsNow` is the `datetime.utcnow`
default of the new `Reading`; `now_ts` is `time.time()`; `cooldown` is
`ALERT_COOLDOWN_SECONDS`; `sms` is the outcome `safe_send_sms` would
report if invoked. -/
def update_level (bin_color : String) (levelField valueField : Option JsonVal)
    (tsNow now_ts cooldown : ℚ) (sms : SmsResult) (st : ServerState) :
    UpdateResult :=
  if bin_color ∈ VALID_BINS then
    let level := coerceLevel levelField valueField
    let b0 : BinRec :=
      match findBin st.bins bin_color with
      | some b => b
      | none => ⟨bin_color, some 0, level⟩
    let b1 : BinRec := { b0 with latest_level := level }
    let st1 : ServerState :=
      { st with bins := replaceBin st.bins b1,
                readings := st.readings ++ [⟨bin_color, level, tsNow⟩] }
    if level ≥ 80 then
      if now_ts - orZero b1.last_alert_ts ≥ cooldown then
        if sms.sent then
          let b2 : BinRec := { b1 with last_alert_ts := some now_ts }
          let st2 : ServerState := { st1 with bins := replaceBin st1.bins b2 }
          let st3 := log_action st2 "auto_alert_sent"
            (bin_color ++ " level=" ++ toString level ++ " sid=" ++ showOpt sms.sid)
          ⟨.ok "success" bin_color level true, st3, true⟩
        else
          let st2 := log_action st1 "auto_alert_failed"
            (bin_color ++ " level=" ++ toString level ++ " error=" ++ showOpt sms.error)
          ⟨.ok "success" bin_color level false, st2, true⟩
      else
        ⟨.ok "success" bin_color level false, st1, false⟩
    else
      ⟨.ok "success" bin_color level false, st1, false⟩
  else
    ⟨.err "invalid bin" 400, st, false⟩

/-- Responses of `trigger_alert`. -/
inductive TriggerResp
  | err (msg : String) (code : Nat)
  | alertSent (sid : Option String)
  | alertFailed (error : Option String)
deriving DecidableEq, Repr

/-- Result of one `trigger_alert` request. -/
structure TriggerResult where
  resp : TriggerResp
  state : ServerState
  smsAttempted : Bool
deriving DecidableEq, Repr

/-- `POST /trigger_alert/<bin_color>` (app.py lines 216-231). -/
def trigger_alert (bin_color : String) (now_ts : ℚ) (sms : SmsResult)
    (st : ServerState) : TriggerResult :=
  if bin_color ∈ VALID_BINS then
    match findBin st.bins bin_color with
    | none => ⟨.err "bin not found" 404, st, false⟩
    | some b =>
      if sms.sent then
        let b2 : BinRec := { b with last_alert_ts := some now_ts }
        let st2 := log_action { st with bins := replaceBin st.bins b2 }
          "manual_alert_sent"
          (bin_color ++ " level=" ++ toString b.latest_level ++ " sid=" ++
            showOpt sms.sid)
        ⟨.alertSent sms.sid, st2, true⟩
      else
        let st2 := log_action st "manual_alert_failed"
          (bin_color ++ " level=" ++ toString b.latest_level ++ " error=" ++
            showOpt sms.error)
        ⟨.alertFailed sms.error, st2, true⟩
  else
    ⟨.err "invalid bin" 400, st, false⟩

/-- `GET /readings/<bin_color>?n=` (app.py lines 182-189): filter by bin,
order by timestamp descending, limit `n`, then reverse back for the JSON
body of `(level, ts)` pairs. -/
def readingsEndpoint (bin_color : String) (n : Nat) (st : ServerState) :
    Except (String × Nat) (List (Int × ℚ)) :=
  if bin_color ∈ VALID_BINS then
    let q := ((st.readings.filter (fun r => r.bin_name == bin_color)).reverse).take n
    .ok (q.reverse.map (fun r => (r.level, r.ts)))
  else
    .error ("invalid bin", 400)

/-- `get_setting`: value of the first row with the key, else the default. -/
def get_setting (st : ServerState) (key dflt : String) : String :=
  match st.settings.find? (fun kv => kv.1 == key) with
  | some kv => kv.2
  | none => dflt

/-- `set_setting`: overwrite the first row with the key, else append. -/
def setKV : List (String × String) → String → String → List (String × String)
  | [], k, v => [(k, v)]
  | kv :: rest, k, v =>
    if kv.1 == k then (k, v) :: rest else kv :: setKV rest k v

/-- Python `str(b)` for a bool. -/
def pyBoolStr (b : Bool) : String := if b then "True" else "False"

/-- Python `str(b).lower()` for a bool. -/
def boolStrLower (b : Bool) : String := if b then "true" else "false"

/-- Response of `PATCH /config`. -/
structure ConfigResp where
  status : String
  simulator_paused : Bool
  changed : List String
deriving DecidableEq, Repr

/-- `PATCH /config` (app.py lines 197-206).  `sp` is `none` when the body has
no `simulator_paused` key; otherwise `some v` where `v` is the key's JSON
value (`none` for JSON null). -/
def patch_config (sp : Option (Option JsonVal)) (st : ServerState) :
    ConfigResp × ServerState :=
  match sp with
  | none =>
    (⟨"ok", get_setting st "simulator_paused" "false" == "true", []⟩, st)
  | some v =>
    let val := pyBool v
    let st1 : ServerState :=
      { st with settings := setKV st.settings "simulator_paused" (boolStrLower val) }
    let st2 := log_action st1 "simulator_paused_toggled"
      ("paused=" ++ pyBoolStr val)
    (⟨"ok", get_setting st2 "simulator_paused" "false" == "true",
      ["simulator_paused=" ++ pyBoolStr val]⟩, st2)

/-! ### Sensor simulator (src/sensor_simulator.py) -/

/-- `P_BIG_JUMP = 0.12`. -/
def P_BIG_JUMP : ℚ := 12 / 100

/-- `P_SMALL_DECREASE = 0.12`. -/
def P_SMALL_DECREASE : ℚ := 12 / 100

/-- `P_EMPTY_WHEN_FULL = 0.25`. -/
def P_EMPTY_WHEN_FULL : ℚ := 25 / 100

/-- `FULL_COUNT_BEFORE_EMPTY = 2`. -/
def FULL_COUNT_BEFORE_EMPTY : Int := 2

/-- `OCCASIONAL_EMPTY_PROB = 0.02`. -/
def OCCASIONAL_EMPTY_PROB : ℚ := 2 / 100

/-- The emptying probability used when the previous level is ≥ 90
(sensor_simulator.py line 58), as a function of the already-incremented
full-streak counter:
`P_EMPTY_WHEN_FULL + 0.15 * max(0, full_count - FULL_COUNT_BEFORE_EMPTY)`. -/
def empty_chance (full_count : Int) : ℚ :=
  P_EMPTY_WHEN_FULL + (15 / 100) * ((max 0 (full_count - FULL_COUNT_BEFORE_EMPTY) : Int) : ℚ)

/-- Per-bin simulator state: `last_levels[name]` and `full_counts[name]`. -/
structure GenState where
  last_level : Option Int
  full_count : Int
deriving DecidableEq, Repr

/-- One call's worth of random draws, passed as an oracle; only the draws the
taken path consumes are meaningful. -/
structure Draws where
  seed : Int
  emptyRoll : ℚ
  emptyLevel : Int
  eventRoll : ℚ
  bigJump : Int
  smallDecrease : Int
  gentleGrowth : Int
deriving DecidableEq, Repr

/-- The ranges the `random` module guarantees for each draw:
`randint(10,35)`, `random() ∈ [0,1)`, `randint(0,18)`, `random() ∈ [0,1)`,
`randint(10,30)`, `randint(2,8)`, `randint(1,8)`. -/
def Draws.WF (d : Draws) : Prop :=
  10 ≤ d.seed ∧ d.seed ≤ 35 ∧
  0 ≤ d.emptyRoll ∧ d.emptyRoll < 1 ∧
  0 ≤ d.emptyLevel ∧ d.emptyLevel ≤ 18 ∧
  0 ≤ d.eventRoll ∧ d.eventRoll < 1 ∧
  10 ≤ d.bigJump ∧ d.bigJump ≤ 30 ∧
  2 ≤ d.smallDecrease ∧ d.smallDecrease ≤ 8 ∧
  1 ≤ d.gentleGrowth ∧ d.gentleGrowth ≤ 8

instance (d : Draws) : Decidable d.WF := by
  unfold Draws.WF
  infer_instance

/-- The level delta chosen by the uniform event roll
(sensor_simulator.py lines 75-84). -/
def eventDelta (d : Draws) : Int :=
  if d.eventRoll < P_BIG_JUMP then d.bigJump
  else if d.eventRoll < P_BIG_JUMP + P_SMALL_DECREASE then -d.smallDecrease
  else d.gentleGrowth

/-- `generate_next_level` (sensor_simulator.py lines 35-96), returning the
new level together with the updated per-bin state. -/
def generate_next_level (d : Draws) (s : GenState) : Int × GenState :=
  match s.last_level with
  | none =>
    let new := d.seed
    (new, ⟨some new, if new ≥ 90 then 1 else 0⟩)
  | some prev =>
    let fc : Int := if prev ≥ 90 then s.full_count + 1 else 0
    let will_empty : Bool :=
      if prev ≥ 90 then decide (d.emptyRoll < empty_chance fc)
      else decide (d.emptyRoll < OCCASIONAL_EMPTY_PROB)
    if will_empty then
      (d.emptyLevel, ⟨some d.emptyLevel, 0⟩)
    else
      let new := max 0 (min 100 (prev + eventDelta d))
      (new, ⟨some new, if new ≥ 90 then fc + 1 else 0⟩)

/-! ### Helper lemmas -/

/-- A bin returned by `findBin` carries the name that was queried. -/
theorem findBin_name {bins : List BinRec} {name : String} {b : BinRec}
    (h : findBin bins name = some b) : b.name = name := by
  have := List.find?_some h
  simpa using this

/-- Looking up a bin right after writing it back finds the written record. -/
theorem findBin_replaceBin (bins : List BinRec) (b : BinRec) :
    findBin (replaceBin bins b) b.name = some b := by
  induction bins with
  | nil => simp [findBin, replaceBin]
  | cons x xs ih =>
    by_cases h : x.name = b.name
    · simp [findBin, replaceBin, h]
    · have hb : (x.name == b.name) = false := by simp [h]
      simpa [findBin, replaceBin, hb, h] using ih

/-- The effective last-alert timestamp of a bin: the stored value through
`x or 0`, or `0` when no row exists (a freshly created row carries the
column default `0.0`). -/
def binLastTs (st : ServerState) (bin : String) : ℚ :=
  match findBin st.bins bin with
  | some b => orZero b.last_alert_ts
  | none => 0

/-- Sample store: the three default bins of `init_bins_if_needed`. -/
def initState : ServerState :=
  ⟨[⟨"yellow", some 0, 0⟩, ⟨"green", some 0, 0⟩, ⟨"blue", some 0, 0⟩], [], [], []⟩

/-- Sample successful send outcome. -/
def smsOkSample : SmsResult := ⟨true, some "SM123", none⟩

/-- Sample failed send outcome (missing Twilio credentials). -/
def smsFailSample : SmsResult := ⟨false, none, some "twilio_not_configured"⟩

/-- `findBin_replaceBin` restated for a query by any name the record carries. -/
theorem findBin_replaceBin_of_name (bins : List BinRec) (b : BinRec)
    (name : String) (h : b.name = name) :
    findBin (replaceBin bins b) name = some b := by
  subst h
  exact findBin_replaceBin bins b

/-! ### Claims -/

/-- Claim C1, as stated, is false on the code: `update_level` coerces the
payload with `int(...)` but never clamps, so posting level 150 to a fresh
"yellow" bin stores 150 in the `Bin` row, appends a `Reading` with level
150, and echoes 150, which exceeds 100. -/
theorem C1_counterexample :
    (update_level "yellow" (some (JsonVal.jint 150)) none 0 0 60 smsFailSample
        initState).resp = UpdateResp.ok "success" "yellow" 150 false ∧
    findBin (update_level "yellow" (some (JsonVal.jint 150)) none 0 0 60
        smsFailSample initState).state.bins "yellow" =
      some ⟨"yellow", some 0, 150⟩ ∧
    (update_level "yellow" (some (JsonVal.jint 150)) none 0 0 60 smsFailSample
        initState).state.readings.map ReadingRec.level = [150] ∧
    ¬ (150 : Int) ≤ 100 := by
  norm_num [update_level, coerceLevel, pyInt, findBin, replaceBin, initState,
    smsFailSample, VALID_BINS, orZero, List.find?]

/-- Claim C1 (amended): for every POST /update_level on a valid bin name, the
level stored in the Bin record, the level of the appended Reading, and the
level echoed in the response all equal the Python-int coercion of the payload
(0 on malformed input); no clamping to [0,100] is applied, so the stored
value may be negative or exceed 100. -/
theorem C1_amended (bin : String) (lf vf : Option JsonVal)
    (tsNow now_ts cooldown : ℚ) (sms : SmsResult) (st : ServerState)
    (hbin : bin ∈ VALID_BINS) :
    (findBin (update_level bin lf vf tsNow now_ts cooldown sms st).state.bins
        bin).map BinRec.latest_level = some (coerceLevel lf vf) ∧
    (update_level bin lf vf tsNow now_ts cooldown sms st).state.readings =
      st.readings ++ [⟨bin, coerceLevel lf vf, tsNow⟩] ∧
    ∃ a, (update_level bin lf vf tsNow now_ts cooldown sms st).resp =
      UpdateResp.ok "success" bin (coerceLevel lf vf) a := by
  cases hfb : findBin st.bins bin with
  | none =>
    simp only [update_level, hfb, hbin, if_true]
    split_ifs with h80 hcd hs <;>
      simp [log_action, findBin_replaceBin_of_name _ _ _ rfl]
  | some b =>
    obtain ⟨nm, bts, blv⟩ := b
    have hname : nm = bin := by simpa using findBin_name hfb
    subst hname
    simp only [update_level, hfb, hbin, if_true]
    split_ifs with h80 hcd hs <;>
      simp [log_action, findBin_replaceBin_of_name _ _ _ rfl]

/-- Witness for C1 (amended) at bin "yellow", payload level 150. -/
theorem C1_amended_witness :
    (findBin (update_level "yellow" (some (JsonVal.jint 150)) none 0 0 60
        smsFailSample initState).state.bins "yellow").map BinRec.latest_level =
      some (coerceLevel (some (JsonVal.jint 150)) none) ∧
    (update_level "yellow" (some (JsonVal.jint 150)) none 0 0 60 smsFailSample
        initState).state.readings = initState.readings ++
      [⟨"yellow", coerceLevel (some (JsonVal.jint 150)) none, 0⟩] ∧
    ∃ a, (update_level "yellow" (some (JsonVal.jint 150)) none 0 0 60
        smsFailSample initState).resp =
      UpdateResp.ok "success" "yellow" (coerceLevel (some (JsonVal.jint 150)) none) a :=
  C1_amended "yellow" (some (JsonVal.jint 150)) none 0 0 60 smsFailSample
    initState (by decide)

/-- Claim C2: for every POST /update_level on a valid bin name, the notifier
is invoked iff the coerced level is ≥ 80 and the current time minus the bin's
last_alert_ts (0 when unset) is ≥ the cooldown; when either condition fails,
no send is attempted and the response reports alert_sent = false. -/
theorem C2_alert_iff (bin : String) (lf vf : Option JsonVal)
    (tsNow now_ts cooldown : ℚ) (sms : SmsResult) (st : ServerState)
    (hbin : bin ∈ VALID_BINS) :
    ((update_level bin lf vf tsNow now_ts cooldown sms st).smsAttempted = true ↔
      (coerceLevel lf vf ≥ 80 ∧ now_ts - binLastTs st bin ≥ cooldown)) ∧
    (¬ (coerceLevel lf vf ≥ 80 ∧ now_ts - binLastTs st bin ≥ cooldown) →
      (update_level bin lf vf tsNow now_ts cooldown sms st).resp =
        UpdateResp.ok "success" bin (coerceLevel lf vf) false) := by
  cases hfb : findBin st.bins bin with
  | none =>
    simp only [update_level, binLastTs, hfb, hbin, if_true]
    split_ifs with h80 hcd hs <;> simp_all [orZero]
  | some b =>
    obtain ⟨nm, bts, blv⟩ := b
    simp only [update_level, binLastTs, hfb, hbin, if_true]
    split_ifs with h80 hcd hs <;> simp_all [orZero]

/-- Witness for C2 at bin "green", level 85, cooldown 0: the condition holds
and the send is attempted. -/
theorem C2_alert_iff_witness :
    (((update_level "green" (some (JsonVal.jint 85)) none 0 0 0 smsOkSample
        initState).smsAttempted = true) ↔
      (coerceLevel (some (JsonVal.jint 85)) none ≥ 80 ∧
        (0 : ℚ) - binLastTs initState "green" ≥ 0)) ∧
    (¬ (coerceLevel (some (JsonVal.jint 85)) none ≥ 80 ∧
        (0 : ℚ) - binLastTs initState "green" ≥ 0) →
      (update_level "green" (some (JsonVal.jint 85)) none 0 0 0 smsOkSample
        initState).resp =
        UpdateResp.ok "success" "green" (coerceLevel (some (JsonVal.jint 85)) none)
          false) :=
  C2_alert_iff "green" (some (JsonVal.jint 85)) none 0 0 0 smsOkSample initState
    (by decide)

/-- Claim C3: on a qualifying update (coerced level ≥ 80, cooldown elapsed)
whose notifier invocation fails, the bin's effective last_alert_ts is
unchanged, an "auto_alert_failed" audit entry is appended, the response
reports alert_sent = false with status "success", and the reading was
recorded. -/
theorem C3_notifier_failure (bin : String) (lf vf : Option JsonVal)
    (tsNow now_ts cooldown : ℚ) (sms : SmsResult) (st : ServerState)
    (hbin : bin ∈ VALID_BINS)
    (h80 : coerceLevel lf vf ≥ 80)
    (hcd : now_ts - binLastTs st bin ≥ cooldown)
    (hfail : sms.sent = false) :
    (update_level bin lf vf tsNow now_ts cooldown sms st).resp =
      UpdateResp.ok "success" bin (coerceLevel lf vf) false ∧
    binLastTs (update_level bin lf vf tsNow now_ts cooldown sms st).state bin =
      binLastTs st bin ∧
    (update_level bin lf vf tsNow now_ts cooldown sms st).state.actions.map
        ActionLogRec.action_type =
      st.actions.map ActionLogRec.action_type ++ ["auto_alert_failed"] ∧
    (update_level bin lf vf tsNow now_ts cooldown sms st).state.readings =
      st.readings ++ [⟨bin, coerceLevel lf vf, tsNow⟩] := by
  cases hfb : findBin st.bins bin with
  | none =>
    simp only [update_level, binLastTs, hfb, hbin, if_true] at hcd ⊢
    split_ifs with h1 h2 <;>
      simp_all [orZero, log_action, binLastTs,
        findBin_replaceBin_of_name _ _ _ rfl]
  | some b =>
    obtain ⟨nm, bts, blv⟩ := b
    have hname : nm = bin := by simpa using findBin_name hfb
    subst hname
    simp only [update_level, binLastTs, hfb, hbin, if_true] at hcd ⊢
    split_ifs with h1 <;>
      simp_all [orZero, log_action, binLastTs,
        findBin_replaceBin_of_name _ _ _ rfl]

/-- Witness for C3 at bin "blue", level 95, cooldown 0, failing notifier. -/
theorem C3_notifier_failure_witness :
    (update_level "blue" (some (JsonVal.jint 95)) none 0 0 0 smsFailSample
        initState).resp =
      UpdateResp.ok "success" "blue" (coerceLevel (some (JsonVal.jint 95)) none)
        false ∧
    binLastTs (update_level "blue" (some (JsonVal.jint 95)) none 0 0 0
        smsFailSample initState).state "blue" = binLastTs initState "blue" ∧
    (update_level "blue" (some (JsonVal.jint 95)) none 0 0 0 smsFailSample
        initState).state.actions.map ActionLogRec.action_type =
      initState.actions.map ActionLogRec.action_type ++ ["auto_alert_failed"] ∧
    (update_level "blue" (some (JsonVal.jint 95)) none 0 0 0 smsFailSample
        initState).state.readings = initState.readings ++
      [⟨"blue", coerceLevel (some (JsonVal.jint 95)) none, 0⟩] :=
  C3_notifier_failure "blue" (some (JsonVal.jint 95)) none 0 0 0 smsFailSample
    initState (by decide) (by decide)
    (by simp [binLastTs, initState, findBin, List.find?, orZero]) (by decide)

/-- Claim C4: POST /trigger_alert on a valid bin with an existing Bin record
always attempts a send (no threshold or cooldown check, whatever the stored
level and last_alert_ts); last_alert_ts becomes the current time exactly when
the send succeeds, with "manual_alert_sent" audited on success and
"manual_alert_failed" on failure. -/
theorem C4_manual_trigger (bin : String) (now_ts : ℚ) (sms : SmsResult)
    (st : ServerState) (b : BinRec)
    (hbin : bin ∈ VALID_BINS) (hfb : findBin st.bins bin = some b) :
    (trigger_alert bin now_ts sms st).smsAttempted = true ∧
    (sms.sent = true →
      binLastTs (trigger_alert bin now_ts sms st).state bin = now_ts ∧
      (trigger_alert bin now_ts sms st).state.actions.map
          ActionLogRec.action_type =
        st.actions.map ActionLogRec.action_type ++ ["manual_alert_sent"] ∧
      (trigger_alert bin now_ts sms st).resp = TriggerResp.alertSent sms.sid) ∧
    (sms.sent = false →
      (trigger_alert bin now_ts sms st).state.bins = st.bins ∧
      (trigger_alert bin now_ts sms st).state.actions.map
          ActionLogRec.action_type =
        st.actions.map ActionLogRec.action_type ++ ["manual_alert_failed"] ∧
      (trigger_alert bin now_ts sms st).resp =
        TriggerResp.alertFailed sms.error) := by
  obtain ⟨nm, bts, blv⟩ := b
  have hname : nm = bin := by simpa using findBin_name hfb
  subst hname
  simp only [trigger_alert, hfb, hbin, if_true]
  cases hs : sms.sent <;>
    simp_all [log_action, binLastTs, orZero,
      findBin_replaceBin_of_name _ _ _ rfl]

/-- Witness for C4: manual trigger on "yellow" in the default store with a
successful send. -/
theorem C4_manual_trigger_witness :
    (trigger_alert "yellow" 5 smsOkSample initState).smsAttempted = true ∧
    (smsOkSample.sent = true →
      binLastTs (trigger_alert "yellow" 5 smsOkSample initState).state
          "yellow" = 5 ∧
      (trigger_alert "yellow" 5 smsOkSample initState).state.actions.map
          ActionLogRec.action_type =
        initState.actions.map ActionLogRec.action_type ++
          ["manual_alert_sent"] ∧
      (trigger_alert "yellow" 5 smsOkSample initState).resp =
        TriggerResp.alertSent smsOkSample.sid) ∧
    (smsOkSample.sent = false →
      (trigger_alert "yellow" 5 smsOkSample initState).state.bins =
        initState.bins ∧
      (trigger_alert "yellow" 5 smsOkSample initState).state.actions.map
          ActionLogRec.action_type =
        initState.actions.map ActionLogRec.action_type ++
          ["manual_alert_failed"] ∧
      (trigger_alert "yellow" 5 smsOkSample initState).resp =
        TriggerResp.alertFailed smsOkSample.error) :=
  C4_manual_trigger "yellow" 5 smsOkSample initState ⟨"yellow", some 0, 0⟩
    (by decide) (by simp [initState, findBin, List.find?])

/-- Claim C10: POST /trigger_alert on a valid bin name with no Bin row
returns the "bin not found" 404 error, attempts no send, changes nothing in
the store (no audit entry, no bin created) — unlike update_level, which
lazily creates the missing bin. -/
theorem C10_trigger_missing_bin (bin : String) (now_ts : ℚ) (sms : SmsResult)
    (st : ServerState) (hbin : bin ∈ VALID_BINS)
    (hmiss : findBin st.bins bin = none) :
    trigger_alert bin now_ts sms st =
      ⟨TriggerResp.err "bin not found" 404, st, false⟩ ∧
    (findBin (update_level bin none none 0 0 0 sms st).state.bins
        bin).isSome = true := by
  constructor
  · simp [trigger_alert, hmiss, hbin]
  · simp only [update_level, hmiss, hbin, if_true]
    have hz : coerceLevel none none = 0 := by decide
    split_ifs with h1 h2 h3 <;>
      simp [log_action, findBin_replaceBin_of_name _ _ _ rfl]

/-- Witness for C10: trigger on "yellow" against an empty store. -/
theorem C10_trigger_missing_bin_witness :
    trigger_alert "yellow" 0 smsOkSample ⟨[], [], [], []⟩ =
      ⟨TriggerResp.err "bin not found" 404, ⟨[], [], [], []⟩, false⟩ ∧
    (findBin (update_level "yellow" none none 0 0 0 smsOkSample
        ⟨[], [], [], []⟩).state.bins "yellow").isSome = true :=
  C10_trigger_missing_bin "yellow" 0 smsOkSample ⟨[], [], [], []⟩
    (by decide) (by rfl)

/-- A payload from which `update_level` cannot extract a usable level: the
"level" key holds a value `int(...)` rejects, or there is no "level" key and
the "value" key is absent, falsy, or holds a value `int(...)` rejects. -/
def malformedPayload (lf vf : Option JsonVal) : Bool :=
  match lf, vf with
  | some v, _ => (pyInt v).isNone
  | none, none => true
  | none, some v => !truthy v || (pyInt v).isNone

/-- Claim C8: a POST /update_level on a valid bin whose payload is absent,
lacks a usable level, or carries a value not coercible to an integer records
level 0: the coercion yields 0, a Reading with level 0 is appended, the Bin
row stores 0, and the request still reports status "success". -/
theorem C8_malformed_defaults_zero (bin : String) (lf vf : Option JsonVal)
    (tsNow now_ts cooldown : ℚ) (sms : SmsResult) (st : ServerState)
    (hbin : bin ∈ VALID_BINS) (hmal : malformedPayload lf vf = true) :
    coerceLevel lf vf = 0 ∧
    (update_level bin lf vf tsNow now_ts cooldown sms st).resp =
      UpdateResp.ok "success" bin 0 false ∧
    (update_level bin lf vf tsNow now_ts cooldown sms st).state.readings =
      st.readings ++ [⟨bin, 0, tsNow⟩] ∧
    (findBin (update_level bin lf vf tsNow now_ts cooldown sms st).state.bins
        bin).map BinRec.latest_level = some 0 := by
  have hz : coerceLevel lf vf = 0 := by
    cases lf with
    | some v =>
      simp only [malformedPayload, Option.isNone_iff_eq_none] at hmal
      simp [coerceLevel, hmal]
    | none =>
      cases vf with
      | none => simp [coerceLevel, pyInt]
      | some v =>
        simp only [malformedPayload, Bool.or_eq_true, Bool.not_eq_true',
          Option.isNone_iff_eq_none] at hmal
        rcases hmal with h | h
        · simp [coerceLevel, h, pyInt]
        · by_cases ht : truthy v
          · simp [coerceLevel, ht, h]
          · simp [coerceLevel, ht, pyInt]
  refine ⟨hz, ?_⟩
  cases hfb : findBin st.bins bin with
  | none =>
    simp only [update_level, hz, hfb, hbin, if_true]
    split_ifs with h1 <;>
      simp_all [log_action, findBin_replaceBin_of_name _ _ _ rfl]
  | some b =>
    obtain ⟨nm, bts, blv⟩ := b
    have hname : nm = bin := by simpa using findBin_name hfb
    subst hname
    simp only [update_level, hz, hfb, hbin, if_true]
    split_ifs with h1 <;>
      simp_all [log_action, findBin_replaceBin_of_name _ _ _ rfl]

/-- Witness for C8: payload level = "abc" (a string `int(...)` rejects) on
bin "green". -/
theorem C8_malformed_defaults_zero_witness :
    coerceLevel (some (JsonVal.jstr "abc")) none = 0 ∧
    (update_level "green" (some (JsonVal.jstr "abc")) none 0 0 60 smsOkSample
        initState).resp = UpdateResp.ok "success" "green" 0 false ∧
    (update_level "green" (some (JsonVal.jstr "abc")) none 0 0 60 smsOkSample
        initState).state.readings = initState.readings ++ [⟨"green", 0, 0⟩] ∧
    (findBin (update_level "green" (some (JsonVal.jstr "abc")) none 0 0 60
        smsOkSample initState).state.bins "green").map BinRec.latest_level =
      some 0 :=
  C8_malformed_defaults_zero "green" (some (JsonVal.jstr "abc")) none 0 0 60
    smsOkSample initState (by decide) (by decide)

/-- The first row written by `set_setting` for a key is found with its new
value. -/
theorem find_setKV (l : List (String × String)) (k v : String) :
    (setKV l k v).find? (fun kv => kv.1 == k) = some (k, v) := by
  induction l with
  | nil => simp [setKV, List.find?]
  | cons kv rest ih =>
    by_cases h : kv.1 = k
    · simp [setKV, h, List.find?]
    · have hb : (kv.1 == k) = false := by simp [h]
      simp [setKV, hb, List.find?, ih]

/-- Claim C9: PATCH /config with a "simulator_paused" key stores the Python
truthiness of the supplied value, not its JSON boolean meaning: the response
flag and the stored setting follow `bool(value)`, so the non-empty string
"false" and any non-zero number yield true, while JSON false, 0, null and ""
yield false. -/
theorem C9_patch_config_truthiness (v : Option JsonVal) (st : ServerState) :
    (patch_config (some v) st).1.simulator_paused = pyBool v ∧
    get_setting (patch_config (some v) st).2 "simulator_paused" "false" =
      boolStrLower (pyBool v) ∧
    pyBool (some (JsonVal.jstr "false")) = true ∧
    pyBool (some (JsonVal.jstr "")) = false ∧
    pyBool (some (JsonVal.jint 0)) = false ∧
    pyBool (some (JsonVal.jint 2)) = true ∧
    pyBool (some (JsonVal.jbool false)) = false ∧
    pyBool none = false := by
  refine ⟨?_, ?_, by decide, by decide, by decide, by decide, by decide,
    by decide⟩
  · simp only [patch_config, log_action, get_setting, find_setKV]
    cases h : pyBool v <;> simp [boolStrLower]
  · simp only [patch_config, log_action, get_setting, find_setKV]

/-- Witness for C9 at value "false" (a non-empty string) on the default
store. -/
theorem C9_patch_config_truthiness_witness :
    (patch_config (some (some (JsonVal.jstr "false"))) initState).1.simulator_paused =
      pyBool (some (JsonVal.jstr "false")) ∧
    get_setting (patch_config (some (some (JsonVal.jstr "false"))) initState).2
        "simulator_paused" "false" =
      boolStrLower (pyBool (some (JsonVal.jstr "false"))) ∧
    pyBool (some (JsonVal.jstr "false")) = true ∧
    pyBool (some (JsonVal.jstr "")) = false ∧
    pyBool (some (JsonVal.jint 0)) = false ∧
    pyBool (some (JsonVal.jint 2)) = true ∧
    pyBool (some (JsonVal.jbool false)) = false ∧
    pyBool none = false :=
  C9_patch_config_truthiness (some (JsonVal.jstr "false")) initState

/-- Claim C5: for every bin state (previous level absent or any integer, any
streak) and every outcome of the random draws within the ranges the `random`
module guarantees, `generate_next_level` returns an integer in [0,100]; on
the seeding path the returned value is exactly the [10,35] seed draw. -/
theorem C5_generator_range (d : Draws) (s : GenState) (hwf : d.WF) :
    0 ≤ (generate_next_level d s).1 ∧ (generate_next_level d s).1 ≤ 100 ∧
    (s.last_level = none → (generate_next_level d s).1 = d.seed) := by
  obtain ⟨h1, h2, h3, h4, h5, h6, h7, h8, h9, h10, h11, h12, h13, h14⟩ := hwf
  cases hl : s.last_level with
  | none =>
    simp only [generate_next_level, hl]
    exact ⟨by omega, by omega, by simp⟩
  | some prev =>
    simp only [generate_next_level, hl]
    refine ⟨?_, ?_, by simp⟩ <;> split_ifs <;> dsimp only <;> omega

/-- Sample draw outcomes for the generator. -/
def drawsSample : Draws := ⟨20, 1/2, 5, 1/2, 15, 5, 3⟩

/-- Witness for C5: the seeding path on a fresh bin with concrete draws. -/
theorem C5_generator_range_witness :
    0 ≤ (generate_next_level drawsSample ⟨none, 0⟩).1 ∧
    (generate_next_level drawsSample ⟨none, 0⟩).1 ≤ 100 ∧
    ((⟨none, 0⟩ : GenState).last_level = none →
      (generate_next_level drawsSample ⟨none, 0⟩).1 = drawsSample.seed) :=
  C5_generator_range drawsSample ⟨none, 0⟩
    (by norm_num [Draws.WF, drawsSample])

/-- Claim C6: the generator's emptying probability when the previous level is
≥ 90 is `0.25 + 0.15 * max(0, full_streak - 2)` of the incremented streak
counter: its value after 1 full reading (incremented counter 2) is 0.25 and
after 3 full readings (incremented counter 4) is 0.55, strictly greater; it
is monotone in the streak and strictly increasing beyond a streak of 2, and
`generate_next_level` empties exactly when the roll is below it. -/
theorem C6_empty_chance_props :
    empty_chance (1 + 1) = 25 / 100 ∧
    empty_chance (3 + 1) = 55 / 100 ∧
    empty_chance (1 + 1) < empty_chance (3 + 1) ∧
    (∀ a b : Int, a ≤ b → empty_chance a ≤ empty_chance b) ∧
    (∀ n : Int, 2 ≤ n → empty_chance n < empty_chance (n + 1)) ∧
    (∀ (d : Draws) (s : GenState) (prev : Int),
      s.last_level = some prev → 90 ≤ prev →
      (generate_next_level d s).1 =
        if d.emptyRoll < empty_chance (s.full_count + 1) then d.emptyLevel
        else max 0 (min 100 (prev + eventDelta d))) := by
  have hval : ∀ k : Int,
      empty_chance k = 25 / 100 + 15 / 100 * ((max 0 (k - 2) : Int) : ℚ) := by
    intro k; rfl
  have e2 : empty_chance (1 + 1) = 25 / 100 := by
    rw [hval]; norm_num
  have e4 : empty_chance (3 + 1) = 55 / 100 := by
    rw [hval]
    have : (max 0 ((3 + 1 : Int) - 2) : Int) = 2 := by omega
    rw [this]; norm_num
  have mono : ∀ a b : Int, a ≤ b → empty_chance a ≤ empty_chance b := by
    intro a b hab
    rw [hval, hval]
    have hm : (max 0 (a - 2) : Int) ≤ max 0 (b - 2) := by omega
    have hmq : ((max 0 (a - 2) : Int) : ℚ) ≤ ((max 0 (b - 2) : Int) : ℚ) := by
      exact_mod_cast hm
    linarith
  have strict : ∀ n : Int, 2 ≤ n → empty_chance n < empty_chance (n + 1) := by
    intro n hn
    rw [hval, hval]
    have hm : (max 0 (n - 2) : Int) + 1 = max 0 (n + 1 - 2) := by omega
    have hmq : ((max 0 (n - 2) : Int) : ℚ) + 1 =
        ((max 0 (n + 1 - 2) : Int) : ℚ) := by exact_mod_cast hm
    linarith
  refine ⟨e2, e4, by rw [e2, e4]; norm_num, mono, strict, ?_⟩
  intro d s prev hl h90
  simp only [generate_next_level, hl, ge_iff_le, h90, if_true,
    decide_eq_true_eq]
  split_ifs with h <;> rfl

/-- Witness for C6: strict growth of the emptying chance at streak 3. -/
theorem C6_empty_chance_props_witness :
    empty_chance 3 < empty_chance (3 + 1) :=
  C6_empty_chance_props.2.2.2.2.1 3 (by decide)

/-- Claim C7: GET /readings/{bin}?n= on a valid bin returns the n most recent
readings of that bin (all of them when fewer than n exist) in chronological
(ascending-timestamp) order, although they are selected in descending
order: the response is the chronological tail of the bin's readings, its
timestamps are sorted ascending, and its length is min n (stored count). -/
theorem C7_readings_endpoint (bin : String) (n : Nat) (st : ServerState)
    (hbin : bin ∈ VALID_BINS)
    (hsorted : st.readings.Pairwise (fun a b => a.ts ≤ b.ts)) :
    readingsEndpoint bin n st =
      Except.ok (((st.readings.filter (fun r => r.bin_name == bin)).drop
          ((st.readings.filter (fun r => r.bin_name == bin)).length - n)).map
        (fun r => (r.level, r.ts))) ∧
    ∀ out, readingsEndpoint bin n st = Except.ok out →
      out.Pairwise (fun a b => a.2 ≤ b.2) ∧
      out.length =
        min n (st.readings.filter (fun r => r.bin_name == bin)).length := by
  have key : ∀ (l : List ReadingRec) (m : Nat),
      (l.reverse.take m).reverse = l.drop (l.length - m) := by
    intro l m
    rw [← List.rtake_eq_reverse_take_reverse]
    rfl
  have hmain : readingsEndpoint bin n st =
      Except.ok (((st.readings.filter (fun r => r.bin_name == bin)).drop
          ((st.readings.filter (fun r => r.bin_name == bin)).length - n)).map
        (fun r => (r.level, r.ts))) := by
    simp only [readingsEndpoint, hbin, if_true]
    rw [key]
  refine ⟨hmain, ?_⟩
  intro out hout
  rw [hmain] at hout
  have hout2 := (Except.ok.injEq _ _ ).mp hout.symm
  subst hout2
  have hp : ((st.readings.filter (fun r => r.bin_name == bin)).drop
      ((st.readings.filter (fun r => r.bin_name == bin)).length - n)).Pairwise
      (fun a b => a.ts ≤ b.ts) :=
    List.Pairwise.sublist (List.drop_sublist _ _) (hsorted.filter _)
  constructor
  · exact List.pairwise_map.mpr hp
  · simp only [List.length_map, List.length_drop]
    omega

/-- Sample store for the readings endpoint. -/
def readStateSample : ServerState :=
  ⟨[], [⟨"yellow", 10, 0⟩, ⟨"green", 50, 0⟩, ⟨"yellow", 20, 0⟩], [], []⟩

/-- Witness for C7 at bin "yellow" with n = 1 on a three-reading store. -/
theorem C7_readings_endpoint_witness :
    readingsEndpoint "yellow" 1 readStateSample =
      Except.ok (((readStateSample.readings.filter
          (fun r => r.bin_name == "yellow")).drop
          ((readStateSample.readings.filter
            (fun r => r.bin_name == "yellow")).length - 1)).map
        (fun r => (r.level, r.ts))) ∧
    ∀ out, readingsEndpoint "yellow" 1 readStateSample = Except.ok out →
      out.Pairwise (fun a b => a.2 ≤ b.2) ∧
      out.length = min 1 (readStateSample.readings.filter
        (fun r => r.bin_name == "yellow")).length :=
  C7_readings_endpoint "yellow" 1 readStateSample (by decide)
    (by simp [readStateSample])

end SmartBin
